import Mathlib

/-!
Shallow embedding of `cms/contrib/YamlImporter.py` (the YAML contest
importer): the contest / user / task parameter extractors and the import
orchestrator, together with theorems about them.

Python dictionaries read from YAML are embedded as structures whose
optional keys are `Option` fields (`conf.get(k, d)` becomes `.getD d`);
Python exceptions become an `Except Err` result; the two FileStorage
uploads `FS.put_file(data, description)` and `FS.put(path, description)`
become the two constructors of `FSRef`, so a blob reference is identified
by exactly the arguments the source sends to the store.
-/

namespace YamlImporter

/-- The Python exceptions that the extractors can raise: the `assert`
statement (`AssertionError`), a failed `open` (`IOError`), and a failed
`int(...)` conversion (`ValueError`). -/
inductive Err where
  | assertionError
  | ioError
  | valueError
  deriving DecidableEq, Repr

/-- `True` exactly for `Except.ok`. -/
def isOk : Except ε α → Bool
  | Except.ok _ => true
  | Except.error _ => false

/-- A reference returned by the FileStorage service.  `put_file` carries the
data handed over together with its description, `put` the file path and the
description, mirroring the two call shapes in the source. -/
inductive FSRef where
  | putFile (data : String) (description : String)
  | put (path : String) (description : String)
  deriving DecidableEq, Repr

/-- `Manager(digest)` from the database layer: wraps one blob reference. -/
structure Manager where
  file : FSRef
  deriving DecidableEq, Repr

/-- `Testcase(input_digest, output_digest)`: one input/output pair. -/
structure Testcase where
  input : FSRef
  output : FSRef
  deriving DecidableEq, Repr

/-- `PublicTestcase(n)`: one public testcase index. -/
structure PublicTestcase where
  num : Int
  deriving DecidableEq, Repr

/-- `SubmissionFormatElement(filename)`. -/
structure SubmissionFormatElement where
  filename : String
  deriving DecidableEq, Repr

/-- Modelled from the spec: `Task.TASK_TYPE_BATCH`, the fixed "batch"
task-type constant of the database layer (`cms.db.SQLAlchemyAll`, not under
`src/`). Its concrete value is irrelevant to every theorem below. -/
def TASK_TYPE_BATCH : String := "batch"

/-- Modelled from the spec: `ScoreTypes.SCORE_TYPE_SUM`, the "sum" scoring
policy constant of `cms.service.ScoreType` (not under `src/`). Its concrete
value is irrelevant to every theorem below. -/
def SCORE_TYPE_SUM : String := "sum"

/-- Python's `s.split(sep)` for a one-character separator, on the character
list: `[] ↦ [[]]` (so `"".split(",") == [""]`), otherwise cut at every
separator occurrence. -/
def splitOnChar (sep : Char) : List Char → List (List Char)
  | [] => [[]]
  | c :: rest =>
    match splitOnChar sep rest with
    | [] => [[]]
    | h :: t => if c = sep then [] :: h :: t else (c :: h) :: t

/-- Python's `s.split(",")`. -/
def split_comma (s : String) : List String :=
  (splitOnChar ',' s.data).map String.mk

/-- The numeric value of one decimal digit character, `none` for any other
character. -/
def digit? (c : Char) : Option Nat :=
  if '0' ≤ c ∧ c ≤ '9' then some (c.toNat - Char.toNat '0') else none

/-- Accumulate a decimal digit string left to right; `none` on the first
non-digit character. -/
def natOfDigits (acc : Nat) : List Char → Option Nat
  | [] => some acc
  | c :: cs =>
    match digit? c with
    | some d => natOfDigits (acc * 10 + d) cs
    | none => none

/-- Python's `int(s)` on a decimal string: an optional sign followed by a
non-empty digit run; `none` models the `ValueError` Python raises otherwise. -/
def int_of_string (s : String) : Option Int :=
  match s.data with
  | '-' :: cs => if cs = [] then none else (natOfDigits 0 cs).map (fun n => -(n : Int))
  | '+' :: cs => if cs = [] then none else (natOfDigits 0 cs).map (fun n => (n : Int))
  | [] => none
  | cs => (natOfDigits 0 cs).map (fun n => (n : Int))

/-- `os.path.split(os.path.realpath(path))[1]`: the final segment of the
path.  `realpath` is modelled as the identity (the embedding's paths are
already canonical, with no symlinks or trailing slashes). -/
def pathBasename (path : String) : String :=
  String.mk ((splitOnChar '/' path.data).getLastD [])

/-- One raw user record from `contest.yaml`'s user list: `username` and
`password` are required keys, the rest are optional. -/
structure UserDict where
  username : String
  password : String
  nome : Option String
  cognome : Option String
  ip : Option String
  fake : Option String
  deriving DecidableEq, Repr

/-- The keyword arguments `get_params_for_user` builds for the `User` class.
The token list is always created empty, so its element type never matters. -/
structure UserParams where
  username : String
  password : String
  real_name : String
  ip : String
  hidden : Bool
  tokens : List Unit
  deriving DecidableEq, Repr

/-- `YamlImporter.get_params_for_user`: pure field mapping and defaulting of
one raw user record. -/
def get_params_for_user (user_dict : UserDict) : UserParams :=
  let name := user_dict.nome.getD ""
  let surname := user_dict.cognome.getD user_dict.username
  { username := user_dict.username
    password := user_dict.password
    real_name := String.intercalate " " [name, surname]
    ip := user_dict.ip.getD "0.0.0.0"
    hidden := "True" == user_dict.fake.getD "False"
    tokens := [] }

/-- The `contest.yaml` document: required keys `nome_breve`, `nome`,
`problemi`, `utenti`; the token and time keys are optional. -/
structure ContestConf where
  nome_breve : String
  nome : String
  token_initial : Option Int
  token_max : Option Int
  token_total : Option Int
  token_min_interval : Option Int
  token_gen_time : Option Int
  inizio : Option Int
  fine : Option Int
  problemi : List String
  utenti : List UserDict
  deriving DecidableEq, Repr

/-- The keyword arguments `get_params_for_contest` builds for the `Contest`
class (tasks and users are returned separately in the source, as here). -/
structure ContestParams where
  name : String
  description : String
  token_initial : Int
  token_max : Int
  token_total : Int
  token_min_interval : Int
  token_gen_time : Int
  start : Int
  stop : Int
  deriving DecidableEq, Repr

/-- `YamlImporter.get_params_for_contest`: derive the contest name from the
final path segment, check it against `conf["nome_breve"]` (the `assert` in
the source raises `AssertionError` on mismatch), then build the parameter
record, defaulting the token fields and — unless `zero_time` is set —
reading `inizio`/`fine` with default 0. -/
def get_params_for_contest (path : String) (conf : ContestConf) (zero_time : Bool) :
    Except Err (ContestParams × List String × List UserDict) :=
  let name := pathBasename path
  if name = conf.nome_breve then
    Except.ok
      ({ name := name
         description := conf.nome
         token_initial := conf.token_initial.getD 0
         token_max := conf.token_max.getD 0
         token_total := conf.token_total.getD 0
         token_min_interval := conf.token_min_interval.getD 0
         token_gen_time := conf.token_gen_time.getD 1
         start := if zero_time then 0 else conf.inizio.getD 0
         stop := if zero_time then 0 else conf.fine.getD 0 },
       conf.problemi, conf.utenti)
  else Except.error Err.assertionError

/-- The `<name>.yaml` document of one task: required keys `nome_breve`,
`nome`, `timeout`, `memlimit`, `n_input`; the rest are optional.  `n_input`
is stored as the integer `int(conf["n_input"])` evaluates to. -/
structure TaskConf where
  nome_breve : String
  nome : String
  timeout : Int
  memlimit : Int
  score_type : Option String
  score_parameters : Option (List Int)
  n_input : Int
  risultati : Option String
  token_initial : Option Int
  token_max : Option Int
  token_total : Option Int
  token_min_interval : Option Int
  token_gen_time : Option Int
  deriving DecidableEq, Repr

/-- The keyword arguments `get_params_for_task` builds for the `Task` class. -/
structure TaskParams where
  name : String
  title : String
  time_limit : Int
  memory_limit : Int
  attachments : List (String × FSRef)
  statement : FSRef
  task_type : String
  submission_format : List SubmissionFormatElement
  managers : List (String × Manager)
  score_type : String
  score_parameters : List Int
  testcases : List Testcase
  public_testcases : List PublicTestcase
  token_initial : Int
  token_max : Int
  token_total : Int
  token_min_interval : Int
  token_gen_time : Int
  deriving DecidableEq, Repr

/-- Lines 134–138 of the source: split `conf.get("risultati", "")` on commas,
special-case the singleton `[""]` produced by the empty string to the empty
list, otherwise convert every piece with `int(...)` (`none` models the
`ValueError` a non-numeric piece raises) and wrap it in `PublicTestcase`. -/
def parse_public_testcases (risultati : String) : Option (List PublicTestcase) :=
  let public_testcases := split_comma risultati
  if public_testcases = [""] then some []
  else (public_testcases.mapM int_of_string).map (fun l => l.map PublicTestcase.mk)

/-- The reference `FS.put` returns for the `i`-th input file of a task. -/
def input_ref (path name : String) (i : Nat) : FSRef :=
  FSRef.put (path ++ "/input/input" ++ toString i ++ ".txt")
            ("Input " ++ toString i ++ " for task " ++ name)

/-- The reference `FS.put` returns for the `i`-th output file of a task. -/
def output_ref (path name : String) (i : Nat) : FSRef :=
  FSRef.put (path ++ "/output/output" ++ toString i ++ ".txt")
            ("Output " ++ toString i ++ " for task " ++ name)

/-- `YamlImporter.get_params_for_task`.  `fs` maps a path to the content of
the file there (`none`: the file does not exist, so `open` raises `IOError`).
Besides the parameter record (or the exception that escapes), the result
carries the list of FileStorage uploads performed, in order; the uploads
precede the `risultati` parse in the source, so they are reported even when
that parse raises `ValueError`.  The statement file is opened directly
(missing file fatal); the checker open is wrapped in `try/except IOError`,
so a missing checker yields an empty manager map instead of an error. -/
def get_params_for_task (fs : String → Option String) (path : String) (conf : TaskConf) :
    Except Err TaskParams × List FSRef :=
  let name := pathBasename path
  if name = conf.nome_breve then
    match fs (path ++ "/testo/testo.pdf") with
    | none => (Except.error Err.ioError, [])
    | some stmt =>
      let statement := FSRef.putFile stmt ("PDF statement for task " ++ name)
      let managers : List (String × Manager) :=
        match fs (path ++ "/cor/correttore") with
        | some fd => [("checker", Manager.mk (FSRef.putFile fd ("Manager for task " ++ name)))]
        | none => []
      let manager_uploads : List FSRef := managers.map (fun m => m.2.file)
      let testcases : List Testcase :=
        (List.range conf.n_input.toNat).map
          (fun i => Testcase.mk (input_ref path name i) (output_ref path name i))
      let testcase_uploads : List FSRef :=
        (testcases.map (fun tc => [tc.input, tc.output])).flatten
      let uploads := statement :: (manager_uploads ++ testcase_uploads)
      match parse_public_testcases (conf.risultati.getD "") with
      | none => (Except.error Err.valueError, uploads)
      | some pts =>
        (Except.ok
          { name := name
            title := conf.nome
            time_limit := conf.timeout
            memory_limit := conf.memlimit
            attachments := []
            statement := statement
            task_type := TASK_TYPE_BATCH
            submission_format := [SubmissionFormatElement.mk (name ++ ".%l")]
            managers := managers
            score_type := conf.score_type.getD SCORE_TYPE_SUM
            score_parameters := conf.score_parameters.getD []
            testcases := testcases
            public_testcases := pts
            token_initial := conf.token_initial.getD 0
            token_max := conf.token_max.getD 0
            token_total := conf.token_total.getD 0
            token_min_interval := conf.token_min_interval.getD 0
            token_gen_time := conf.token_gen_time.getD 60 }, uploads)
  else (Except.error Err.assertionError, [])

/-- The persistence operations `do_import` performs, in order. -/
inductive DBOp where
  | dropAll
  | createAll
  | importContest
  | sessionNew
  | sessionAdd
  | sessionCommit
  | sessionClose
  deriving DecidableEq, Repr

/-- `YamlImporter.do_import`, as the trace of persistence operations it
performs plus whether an exception propagates.  `import_ok` models whether
`self.import_contest(...)` returns normally, `commit_raises` whether
`session.commit()` raises.  The source has no `try/finally`: the statements
run in order and the first exception unwinds the function, skipping the
rest. -/
def do_import (drop import_ok commit_raises : Bool) : List DBOp × Bool :=
  let pre := (if drop then [DBOp.dropAll] else []) ++ [DBOp.createAll, DBOp.importContest]
  if import_ok then
    let trace := pre ++ [DBOp.sessionNew, DBOp.sessionAdd, DBOp.sessionCommit]
    if commit_raises then (trace, true)
    else (trace ++ [DBOp.sessionClose], false)
  else (pre, true)

end YamlImporter

namespace YamlImporter

/-! ## Theorems -/

/-- C2: the task extractor's public-testcase parsing sends `""` to the empty
list, `"0,2,5"` to `[0, 2, 5]` in that order and `"3"` to `[3]`; and inside
`get_params_for_task` the `public_testcases` field is exactly the parse of
the `risultati` field (defaulted to `""`). -/
theorem public_testcase_parsing :
    parse_public_testcases "" = some [] ∧
    parse_public_testcases "0,2,5"
      = some [PublicTestcase.mk 0, PublicTestcase.mk 2, PublicTestcase.mk 5] ∧
    parse_public_testcases "3" = some [PublicTestcase.mk 3] ∧
    ∀ (fs : String → Option String) (path : String) (conf : TaskConf),
      (get_params_for_task fs path conf).1.map TaskParams.public_testcases
        = (get_params_for_task fs path conf).1.map
            (fun _ => (parse_public_testcases (conf.risultati.getD "")).getD []) := by
  refine ⟨by decide, by decide, by decide, ?_⟩
  intro fs path conf
  unfold get_params_for_task
  by_cases h : pathBasename path = conf.nome_breve
  · simp only [h, if_true]
    cases hs : fs (path ++ "/testo/testo.pdf")
    · rfl
    · cases hp : parse_public_testcases (conf.risultati.getD "") <;>
        simp [hp, Except.map]
  · simp [h, Except.map]

/-- C7: when the zero-time flag is set the contest extractor forces
`start = stop = 0` whatever the configuration holds; otherwise it passes the
configured `inizio`/`fine` through, defaulting each absent one to 0. -/
theorem zero_time_start_stop :
    ∀ (path : String) (conf : ContestConf) (zero_time : Bool),
    (get_params_for_contest path conf zero_time).map (fun r => (r.1.start, r.1.stop))
      = (get_params_for_contest path conf zero_time).map
          (fun _ => if zero_time then ((0 : Int), (0 : Int))
                    else (conf.inizio.getD 0, conf.fine.getD 0)) := by
  intro path conf zero_time
  unfold get_params_for_contest
  by_cases h : pathBasename path = conf.nome_breve <;>
    cases zero_time <;> simp [h, Except.map]

end YamlImporter

namespace YamlImporter

/-- C9: the extracted `hidden` flag is true exactly when the record's `fake`
key holds the exact string `"True"` (any other value, or an absent key,
gives false), and the `ip` field is the value of the record's `ip` key
defaulted to the sentinel `"0.0.0.0"` — so an absent key yields the
sentinel. -/
theorem hidden_marker_and_ip_default :
    ∀ u : UserDict,
    ((get_params_for_user u).hidden = true ↔ u.fake = some "True") ∧
    (get_params_for_user u).ip = u.ip.getD "0.0.0.0" := by
  intro u
  constructor
  · show ("True" == u.fake.getD "False") = true ↔ u.fake = some "True"
    cases u.fake with
    | none => decide
    | some s =>
      simp only [Option.getD_some, beq_iff_eq, Option.some.injEq]
      exact eq_comm
  · rfl

/-- C3 counterexample: the user record with username `"alice"`, a password
and no `nome`/`cognome` keys yields `real_name = " alice"` (a leading space
from joining the empty first name), not `"alice"`. -/
theorem real_name_fallback_counterexample :
    (get_params_for_user
        { username := "alice", password := "pw",
          nome := none, cognome := none, ip := none, fake := none }).real_name
        = " alice" ∧
    ¬ (get_params_for_user
        { username := "alice", password := "pw",
          nome := none, cognome := none, ip := none, fake := none }).real_name
        = "alice" := by
  constructor
  · decide
  · decide

/-- C3 (amended): for a user record with a username and password but no
`nome`/`cognome` keys, the surname falls back to the username and the join
with the absent (empty) first name produces a single space followed by the
username: `real_name = " " ++ username`, not the bare username. -/
theorem real_name_fallback (u : UserDict)
    (h1 : u.nome = none) (h2 : u.cognome = none) :
    (get_params_for_user u).real_name = " " ++ u.username := by
  simp [get_params_for_user, h1, h2, String.intercalate, String.intercalate.go]

/-- C3 witness: the amended statement evaluated on the `"alice"` record. -/
theorem real_name_fallback_witness :
    (get_params_for_user
        { username := "alice", password := "pw",
          nome := none, cognome := none, ip := none, fake := none }).real_name
      = " " ++ "alice" :=
  real_name_fallback
    { username := "alice", password := "pw",
      nome := none, cognome := none, ip := none, fake := none } rfl rfl

/-- C8 counterexample: the run with `drop = false` in which `import_contest`
returns normally and `session.commit()` raises acquires the session
(`sessionNew` is in the trace) but never closes it (`sessionClose` is not),
and the exception propagates. -/
theorem session_close_counterexample :
    DBOp.sessionNew ∈ (do_import false true true).1 ∧
    DBOp.sessionClose ∉ (do_import false true true).1 ∧
    (do_import false true true).2 = true := by
  decide

/-- C8 (amended): `do_import` closes the session only on the success path:
`session.close()` runs exactly when `import_contest` returned normally and
`session.commit()` did not raise; there is no `try/finally`, so a commit
exception leaves the session unclosed. -/
theorem session_close_only_on_success :
    ∀ drop import_ok commit_raises : Bool,
    (DBOp.sessionClose ∈ (do_import drop import_ok commit_raises).1 ↔
       (import_ok = true ∧ commit_raises = false)) ∧
    (DBOp.sessionNew ∈ (do_import drop import_ok commit_raises).1 ↔
       import_ok = true) := by
  decide

end YamlImporter

namespace YamlImporter

/-- Helper: the task extraction succeeds exactly when the name check, the
statement-file open and the public-testcase parse all pass; in particular
nothing else (the checker's presence included) decides success. -/
theorem task_isOk_iff (fs : String → Option String) (path : String) (conf : TaskConf) :
    isOk (get_params_for_task fs path conf).1 = true ↔
      (pathBasename path = conf.nome_breve ∧
       (fs (path ++ "/testo/testo.pdf")).isSome = true ∧
       (parse_public_testcases (conf.risultati.getD "")).isSome = true) := by
  unfold get_params_for_task
  by_cases h : pathBasename path = conf.nome_breve
  · simp only [h, if_true]
    cases hs : fs (path ++ "/testo/testo.pdf")
    · simp [isOk]
    · cases hp : parse_public_testcases (conf.risultati.getD "") <;>
        simp [hp, isOk]
  · simp [h, isOk]

/-- C1: for both the contest and the task extractor, extraction gets past
the short-name check exactly when the directory name derived from the final
path segment equals the configuration's `nome_breve`; whenever they differ,
extraction fails with the fatal `AssertionError`. -/
theorem name_check_gates_extraction :
    ∀ (path : String) (cconf : ContestConf) (zero_time : Bool)
      (fs : String → Option String) (tconf : TaskConf),
    (isOk (get_params_for_contest path cconf zero_time) = true ↔
       pathBasename path = cconf.nome_breve) ∧
    (get_params_for_contest path cconf zero_time = Except.error Err.assertionError ↔
       ¬ pathBasename path = cconf.nome_breve) ∧
    ((get_params_for_task fs path tconf).1 ≠ Except.error Err.assertionError ↔
       pathBasename path = tconf.nome_breve) ∧
    ((get_params_for_task fs path tconf).1 = Except.error Err.assertionError ↔
       ¬ pathBasename path = tconf.nome_breve) := by
  intro path cconf zero_time fs tconf
  have hc : ∀ b : Bool, isOk (get_params_for_contest path cconf b) = true ↔
      pathBasename path = cconf.nome_breve := by
    intro b
    unfold get_params_for_contest
    by_cases h : pathBasename path = cconf.nome_breve <;> simp [h, isOk]
  have hc2 : get_params_for_contest path cconf zero_time
      = Except.error Err.assertionError ↔ ¬ pathBasename path = cconf.nome_breve := by
    unfold get_params_for_contest
    by_cases h : pathBasename path = cconf.nome_breve <;> simp [h]
  have ht : (get_params_for_task fs path tconf).1 = Except.error Err.assertionError ↔
      ¬ pathBasename path = tconf.nome_breve := by
    unfold get_params_for_task
    by_cases h : pathBasename path = tconf.nome_breve
    · simp only [h, if_true]
      cases hs : fs (path ++ "/testo/testo.pdf")
      · simp [h]
      · cases hp : parse_public_testcases (tconf.risultati.getD "") <;> simp [hp, h]
    · simp [h]
  exact ⟨hc zero_time, hc2, by simp only [Ne, ht, not_not], ht⟩

/-- C6: the task extractor's manager map has exactly the one `"checker"`
entry, holding the uploaded checker's reference, when the checker file
exists, and is empty when it is absent; and success of the extraction does
not depend on the checker at all (its absence never raises). -/
theorem checker_optional :
    ∀ (fs : String → Option String) (path : String) (conf : TaskConf),
    ((get_params_for_task fs path conf).1.map TaskParams.managers
       = (get_params_for_task fs path conf).1.map (fun _ =>
           match fs (path ++ "/cor/correttore") with
           | some fd =>
               [("checker",
                 Manager.mk (FSRef.putFile fd ("Manager for task " ++ pathBasename path)))]
           | none => [])) ∧
    (isOk (get_params_for_task fs path conf).1 = true ↔
       (pathBasename path = conf.nome_breve ∧
        (fs (path ++ "/testo/testo.pdf")).isSome = true ∧
        (parse_public_testcases (conf.risultati.getD "")).isSome = true)) := by
  intro fs path conf
  refine ⟨?_, task_isOk_iff fs path conf⟩
  unfold get_params_for_task
  by_cases h : pathBasename path = conf.nome_breve
  · simp only [h, if_true]
    cases hs : fs (path ++ "/testo/testo.pdf")
    · simp [Except.map]
    · cases hp : parse_public_testcases (conf.risultati.getD "") <;>
        cases hcor : fs (path ++ "/cor/correttore") <;>
          simp [hp, hcor, Except.map]
  · simp [h, Except.map]

end YamlImporter

namespace YamlImporter

/-- A concrete task directory at `"c/t"`: the statement and checker files
exist, nothing else does. Fixture for evaluating the theorems below. -/
def sample_fs : String → Option String := fun q =>
  if q = "c/t/testo/testo.pdf" then some "pdfbytes"
  else if q = "c/t/cor/correttore" then some "checkerbytes"
  else none

/-- A concrete two-testcase task configuration with every optional token
field absent. -/
def sample_task_conf : TaskConf :=
  { nome_breve := "t", nome := "Task T", timeout := 3, memlimit := 128,
    score_type := none, score_parameters := none, n_input := 2,
    risultati := some "0,1",
    token_initial := none, token_max := none, token_total := none,
    token_min_interval := none, token_gen_time := none }

/-- The same task configuration with a negative declared testcase count and
no `risultati` key. -/
def sample_task_conf_neg : TaskConf :=
  { sample_task_conf with n_input := -2, risultati := none }

/-- A concrete contest configuration with every optional field absent. -/
def sample_contest_conf : ContestConf :=
  { nome_breve := "c", nome := "Contest C", token_initial := none,
    token_max := none, token_total := none, token_min_interval := none,
    token_gen_time := none, inizio := none, fine := none,
    problemi := ["t"], utenti := [] }

/-- C5: for a declared testcase count `N`, the task extractor produces
exactly `N` `Testcase` records, as the enumeration over indices `0..N-1` in
order, the record at index `i` pairing the reference of the uploaded
`input<i>.txt` with the reference of the uploaded `output<i>.txt`. -/
theorem testcase_enumeration (fs : String → Option String) (path : String)
    (conf : TaskConf) (N : Nat) (hN : conf.n_input = (N : Int)) :
    ((get_params_for_task fs path conf).1.map (fun p => p.testcases.length)
       = (get_params_for_task fs path conf).1.map (fun _ => N)) ∧
    ((get_params_for_task fs path conf).1.map TaskParams.testcases
       = (get_params_for_task fs path conf).1.map (fun _ =>
           (List.range N).map (fun i =>
             Testcase.mk (input_ref path (pathBasename path) i)
                         (output_ref path (pathBasename path) i)))) := by
  have htn : conf.n_input.toNat = N := by rw [hN]; exact Int.toNat_natCast N
  constructor <;>
    (unfold get_params_for_task
     by_cases h : pathBasename path = conf.nome_breve
     · simp only [h, if_true]
       cases hs : fs (path ++ "/testo/testo.pdf")
       · simp [Except.map]
       · cases hp : parse_public_testcases (conf.risultati.getD "") <;>
           simp [hp, Except.map, htn]
     · simp [h, Except.map])

/-- C5 witness: the enumeration theorem evaluated on the concrete
two-testcase fixture. -/
theorem testcase_enumeration_witness :
    ((get_params_for_task sample_fs "c/t" sample_task_conf).1.map
        (fun p => p.testcases.length)
       = (get_params_for_task sample_fs "c/t" sample_task_conf).1.map (fun _ => 2)) ∧
    ((get_params_for_task sample_fs "c/t" sample_task_conf).1.map TaskParams.testcases
       = (get_params_for_task sample_fs "c/t" sample_task_conf).1.map (fun _ =>
           (List.range 2).map (fun i =>
             Testcase.mk (input_ref "c/t" (pathBasename "c/t") i)
                         (output_ref "c/t" (pathBasename "c/t") i)))) :=
  testcase_enumeration sample_fs "c/t" sample_task_conf 2 rfl

/-- C10: a zero or negative declared testcase count does not make the task
extractor fail: the testcase list is the empty enumeration, no `FS.put`
upload (the shape every input/output upload has) is performed, and success
still depends only on the name check, the statement file and the
public-testcase parse. -/
theorem nonpositive_testcase_count (fs : String → Option String) (path : String)
    (conf : TaskConf) (h : conf.n_input ≤ 0) :
    ((get_params_for_task fs path conf).1.map TaskParams.testcases
       = (get_params_for_task fs path conf).1.map (fun _ => ([] : List Testcase))) ∧
    (∀ r ∈ (get_params_for_task fs path conf).2, ∀ q d, r ≠ FSRef.put q d) ∧
    (isOk (get_params_for_task fs path conf).1 = true ↔
       (pathBasename path = conf.nome_breve ∧
        (fs (path ++ "/testo/testo.pdf")).isSome = true ∧
        (parse_public_testcases (conf.risultati.getD "")).isSome = true)) := by
  have htn : conf.n_input.toNat = 0 := Int.toNat_of_nonpos h
  refine ⟨?_, ?_, task_isOk_iff fs path conf⟩
  · unfold get_params_for_task
    by_cases hb : pathBasename path = conf.nome_breve
    · simp only [hb, if_true]
      cases hs : fs (path ++ "/testo/testo.pdf")
      · simp [Except.map]
      · cases hp : parse_public_testcases (conf.risultati.getD "") <;>
          simp [hp, Except.map, htn]
    · simp [hb, Except.map]
  · unfold get_params_for_task
    by_cases hb : pathBasename path = conf.nome_breve
    · simp only [hb, if_true]
      cases hs : fs (path ++ "/testo/testo.pdf")
      · simp
      · cases hp : parse_public_testcases (conf.risultati.getD "") <;>
          cases hcor : fs (path ++ "/cor/correttore") <;>
            simp [hp, hcor, htn]
    · simp [hb]

/-- C10 witness: the theorem evaluated on the fixture with declared count
`-2`; extraction succeeds and yields no testcases. -/
theorem nonpositive_testcase_count_witness :
    ((get_params_for_task sample_fs "c/t" sample_task_conf_neg).1.map TaskParams.testcases
       = (get_params_for_task sample_fs "c/t" sample_task_conf_neg).1.map
           (fun _ => ([] : List Testcase))) ∧
    isOk (get_params_for_task sample_fs "c/t" sample_task_conf_neg).1 = true := by
  have h := nonpositive_testcase_count sample_fs "c/t" sample_task_conf_neg (by decide)
  exact ⟨h.1, h.2.2.mpr (by decide)⟩

end YamlImporter

namespace YamlImporter

/-- C4: when every token-bucket key is absent, both extractors default
`token_initial`, `token_max`, `token_total` and `token_min_interval` to 0,
while `token_gen_time` defaults to 1 in the contest extractor and to 60 in
the task extractor. -/
theorem token_bucket_defaults (path : String) (cconf : ContestConf) (zero_time : Bool)
    (fs : String → Option String) (tpath : String) (tconf : TaskConf)
    (hc1 : cconf.token_initial = none) (hc2 : cconf.token_max = none)
    (hc3 : cconf.token_total = none) (hc4 : cconf.token_min_interval = none)
    (hc5 : cconf.token_gen_time = none)
    (ht1 : tconf.token_initial = none) (ht2 : tconf.token_max = none)
    (ht3 : tconf.token_total = none) (ht4 : tconf.token_min_interval = none)
    (ht5 : tconf.token_gen_time = none) :
    ((get_params_for_contest path cconf zero_time).map
        (fun r => (r.1.token_initial, r.1.token_max, r.1.token_total,
                   r.1.token_min_interval, r.1.token_gen_time))
       = (get_params_for_contest path cconf zero_time).map
           (fun _ => ((0 : Int), (0 : Int), (0 : Int), (0 : Int), (1 : Int)))) ∧
    ((get_params_for_task fs tpath tconf).1.map
        (fun p => (p.token_initial, p.token_max, p.token_total,
                   p.token_min_interval, p.token_gen_time))
       = (get_params_for_task fs tpath tconf).1.map
           (fun _ => ((0 : Int), (0 : Int), (0 : Int), (0 : Int), (60 : Int)))) := by
  constructor
  · unfold get_params_for_contest
    by_cases h : pathBasename path = cconf.nome_breve <;>
      simp [h, Except.map, hc1, hc2, hc3, hc4, hc5]
  · unfold get_params_for_task
    by_cases h : pathBasename tpath = tconf.nome_breve
    · simp only [h, if_true]
      cases hs : fs (tpath ++ "/testo/testo.pdf")
      · simp [Except.map]
      · cases hp : parse_public_testcases (tconf.risultati.getD "") <;>
          simp [hp, Except.map, ht1, ht2, ht3, ht4, ht5]
    · simp [h, Except.map]

/-- C4 witness: the defaults theorem evaluated on the concrete fixtures, in
which every token key is absent. -/
theorem token_bucket_defaults_witness :
    ((get_params_for_contest "c" sample_contest_conf false).map
        (fun r => (r.1.token_initial, r.1.token_max, r.1.token_total,
                   r.1.token_min_interval, r.1.token_gen_time))
       = (get_params_for_contest "c" sample_contest_conf false).map
           (fun _ => ((0 : Int), (0 : Int), (0 : Int), (0 : Int), (1 : Int)))) ∧
    ((get_params_for_task sample_fs "c/t" sample_task_conf).1.map
        (fun p => (p.token_initial, p.token_max, p.token_total,
                   p.token_min_interval, p.token_gen_time))
       = (get_params_for_task sample_fs "c/t" sample_task_conf).1.map
           (fun _ => ((0 : Int), (0 : Int), (0 : Int), (0 : Int), (60 : Int)))) :=
  token_bucket_defaults "c" sample_contest_conf false sample_fs "c/t" sample_task_conf
    rfl rfl rfl rfl rfl rfl rfl rfl rfl rfl

end YamlImporter
